import Mathlib

/-!
Verification of the `functionsdk` client wrapper (`src/functionsdk/client.py`).

The development shallowly embeds the client: Python exceptions become an
explicit error type, the async streaming generator becomes a finite list of
chunks together with a termination status, and the externally generated RPC
stub (`APIGatewayServiceStub`) becomes an injected record of response
functions, as the spec itself recommends for test doubles.  Each remote call
is reified as a `RemoteCall` value recording the headers and the request that
the stub would put on the wire, so that header-attachment and argument
pass-through are provable.
-/

/-- Python exceptions that the client code can raise, carrying their message
where the source supplies one. -/
inductive PyExc where
  | valueError (msg : String)
  | stopAsyncIteration
  | runtimeError (msg : String)
deriving DecidableEq

/-- How the body of a Python (async) generator finished: it either ran off the
end (returned) or raised an exception. -/
inductive BodyEnd where
  | returned
  | raised (e : PyExc)
deriving DecidableEq

/-- What the consumer of an async generator observes after the last yielded
item: clean exhaustion (`StopAsyncIteration` from the protocol) or a raised
exception. -/
inductive GenEnd where
  | exhausted
  | failed (e : PyExc)
deriving DecidableEq

/-- CPython's async-generator protocol (PEP 525, following PEP 479): a
`StopAsyncIteration` raised from inside the body of an async generator is
replaced by `RuntimeError("async generator raised StopAsyncIteration")`; any
other exception propagates unchanged, and a body that runs off the end gives
clean exhaustion. -/
def pep525Convert : BodyEnd → GenEnd
  | BodyEnd.returned => GenEnd.exhausted
  | BodyEnd.raised PyExc.stopAsyncIteration =>
      GenEnd.failed (PyExc.runtimeError "async generator raised StopAsyncIteration")
  | BodyEnd.raised e => GenEnd.failed e

/-- A complete run of an async generator of strings: the yielded tokens in
order, and how iteration ended after the last one. -/
structure GenRun where
  tokens : List String
  ending : GenEnd
deriving DecidableEq

/-! ## Model of `urllib.parse.urlparse`

`Client.__init__` reads `scheme`, `hostname`, `port` and `path` from the
result of `urlparse(options.baseUrl)`.  The definitions below model the
CPython implementation of those components: removal of ASCII tab and newline
characters, the scheme split (a leading run of scheme characters starting
with an ASCII letter, before a colon, lowercased), the `//netloc` split up to
the first of `/?#`, fragment and query stripping, the params split on the
last path segment, and the `hostname`/`port` properties (userinfo stripped at
the last `@`, bracketed IPv6 handled, hostname lowercased and empty mapped to
`None`).  Accessing the `port` attribute raises `ValueError` in CPython when
the port substring is non-numeric or out of range 0-65535; the `port` field
is therefore an `Except`, and `Client.init` propagates its error, since
`Client.__init__` evaluates `url.port` while building the channel. -/

/-- Split a character list at the first occurrence of `sep`, returning the
parts before and after it, or `none` when `sep` does not occur. -/
def splitOnFirst (sep : Char) : List Char → Option (List Char × List Char)
  | [] => none
  | c :: cs =>
    if c = sep then some ([], cs)
    else
      match splitOnFirst sep cs with
      | some (pre, post) => some (c :: pre, post)
      | none => none

/-- Split a character list at the last occurrence of `sep`. -/
def splitOnLast (sep : Char) (cs : List Char) : Option (List Char × List Char) :=
  match splitOnFirst sep cs.reverse with
  | some (a, b) => some (b.reverse, a.reverse)
  | none => none

/-- Characters permitted in a URL scheme after the first letter
(`scheme_chars` in `urllib.parse`). -/
def isSchemeChar (c : Char) : Bool :=
  c.isAlpha || c.isDigit || c == '+' || c == '-' || c == '.'

/-- `urlparse`'s params split: drop a `;`-suffix from the last path segment
only (`_splitparams` in `urllib.parse`). -/
def splitParams (cs : List Char) : List Char :=
  match splitOnLast '/' cs with
  | some (pre, lastSeg) =>
      if lastSeg.contains ';' then pre ++ '/' :: lastSeg.takeWhile (fun c => c != ';')
      else cs
  | none =>
      if cs.contains ';' then cs.takeWhile (fun c => c != ';') else cs

/-- Split a netloc into its host characters and its port characters
(`_hostinfo` in `urllib.parse`): userinfo up to the last `@` is dropped, a
bracketed host is read up to `]` with the port after the following `:`,
otherwise the host is everything before the first `:` and the port
everything after it. -/
def hostsplit (netloc : List Char) : List Char × List Char :=
  let hi :=
    match splitOnLast '@' netloc with
    | some (_, post) => post
    | none => netloc
  match splitOnFirst '[' hi with
  | some (_, bracketed) =>
      let hn := bracketed.takeWhile (fun c => c != ']')
      let afterBr := (bracketed.dropWhile (fun c => c != ']')).drop 1
      let p :=
        match splitOnFirst ':' afterBr with
        | some (_, pp) => pp
        | none => []
      (hn, p)
  | none =>
      let p :=
        match splitOnFirst ':' hi with
        | some (_, pp) => pp
        | none => []
      (hi.takeWhile (fun c => c != ':'), p)

/-- The `port` property (`_NetlocResultMixinBase.port`): an absent or empty
port substring gives `none`; a nonempty one must satisfy
`port.isdigit() and port.isascii()` — ASCII decimal digits only — and lie in
0-65535; otherwise the property raises `ValueError` (the CPython messages,
minus the repr of the offending string appended to the first one, are
kept). -/
def portOfChars (cs : List Char) : Except PyExc (Option Nat) :=
  if cs.isEmpty then Except.ok none
  else if cs.all (fun c => c.isDigit) then
    let v := cs.foldl (fun acc c => acc * 10 + (c.toNat - 48)) 0
    if v ≤ 65535 then Except.ok (some v)
    else Except.error (PyExc.valueError "Port out of range 0-65535")
  else Except.error (PyExc.valueError "Port could not be cast to integer value")

/-- The `hostname` and `port` properties of a parse result, computed from the
netloc: the hostname is lowercased with the empty string becoming `none`;
the port carries the possible `ValueError` of its property access. -/
def hostinfoOf (netloc : List Char) : Option String × Except PyExc (Option Nat) :=
  let hp := hostsplit netloc
  (if hp.1.isEmpty then none else some (String.mk (hp.1.map Char.toLower)),
   portOfChars hp.2)

/-- The components of a parsed URL that the client reads.  `port` models the
lazy `port` property: reading it can raise. -/
structure UrlParseResult where
  scheme : String
  netloc : String
  path : String
  hostname : Option String
  port : Except PyExc (Option Nat)

/-- Model of `urllib.parse.urlparse` restricted to the components consumed by
`Client.__init__` (see the section comment above for the CPython behaviour it
follows). -/
def urlparse (url : String) : UrlParseResult :=
  let cs := url.toList.filter (fun c => !(c == '\t' || c == '\r' || c == '\n'))
  let schemeRest :=
    match splitOnFirst ':' cs with
    | some (pre, post) =>
        match pre with
        | [] => (([] : List Char), cs)
        | c0 :: _ =>
            if c0.isAlpha && pre.all isSchemeChar then (pre.map Char.toLower, post)
            else ([], cs)
    | none => (([] : List Char), cs)
  let netlocRest :=
    match schemeRest.2 with
    | '/' :: '/' :: r =>
        (r.takeWhile (fun c => !(c == '/' || c == '?' || c == '#')),
         r.dropWhile (fun c => !(c == '/' || c == '?' || c == '#')))
    | other => (([] : List Char), other)
  let noFrag := netlocRest.2.takeWhile (fun c => c != '#')
  let noQuery := noFrag.takeWhile (fun c => c != '?')
  let path := splitParams noQuery
  let hp := hostinfoOf netlocRest.1
  { scheme := String.mk schemeRest.1
    netloc := String.mk netlocRest.1
    path := String.mk path
    hostname := hp.1
    port := hp.2 }

/-! ## Data model

The request and response payload types are generated from the protocol schema
and are not part of this repository; they are modelled from the spec's wire
table (spec section 6).  The client treats them opaquely. -/

/-- A chat message: role and content pair, passed through unmodified. -/
structure ChatCompleteMessage where
  role : String
  content : String
deriving DecidableEq

/-- Externally generated response of the unary `chat_complete` call:
role, content and token usage. -/
structure ChatCompleteResponse where
  role : String
  content : String
  tokenUsage : Nat
deriving DecidableEq

/-- Externally generated response of `embed`: the embedding vector. -/
structure EmbedResponse where
  embedding : List Int
deriving DecidableEq

/-- Externally generated response of `transcribe`: the transcribed text. -/
structure TranscribeResponse where
  text : String
deriving DecidableEq

/-- Externally generated image descriptor returned by `text_to_image`. -/
structure TextToImageResponseImage where
  url : String
deriving DecidableEq

/-- Externally generated response of `text_to_image`: a list of image
descriptors in generation order. -/
structure TextToImageResponse where
  images : List TextToImageResponseImage
deriving DecidableEq

/-- Externally generated image-quality enumeration; its values are opaque to
the client. -/
inductive ImageQuality where
  | low
  | standard
  | high
deriving DecidableEq

/-- The payload carried by one chunk of the streaming chat call: a `response`
with `role` and `content` fields. -/
structure StreamChunkPayload where
  role : String
  content : String
deriving DecidableEq

/-- One chunk of the generated streaming response type
(`functionsdk.ChatCompleteStreamResponse` in the source, distinct from the
wrapper dataclass of the same name). -/
structure ProtoChatCompleteStreamResponse where
  response : StreamChunkPayload
deriving DecidableEq

/-- Request of the chat-completion calls; the wire field is named `message`
and carries the ordered conversation. -/
structure ChatCompleteRequest where
  model : String
  message : List ChatCompleteMessage
deriving DecidableEq

/-- Request of `embed`; the wire field is named `input`. -/
structure EmbedRequest where
  model : String
  input : String
deriving DecidableEq

/-- Request of `text_to_image`.  `count` is a Python `int`, so it is modelled
as `Int` (zero and negative values are representable). -/
structure TextToImageRequest where
  model : String
  prompt : String
  count : Int
  quality : ImageQuality
  size : String
deriving DecidableEq

/-- Request of `transcribe`. -/
structure TranscribeRequest where
  model : String
  url : String
deriving DecidableEq

/-- The request put on the wire by one remote call, tagged by operation. -/
inductive OpRequest where
  | chatComplete (r : ChatCompleteRequest)
  | chatCompleteStream (r : ChatCompleteRequest)
  | embed (r : EmbedRequest)
  | textToImage (r : TextToImageRequest)
  | transcribe (r : TranscribeRequest)
deriving DecidableEq

/-- One remote call as issued through the stub: the metadata headers attached
to the call and the operation request. -/
structure RemoteCall where
  headers : List (String × String)
  request : OpRequest
deriving DecidableEq

/-- The remote service's behaviour: one response function per operation, the
injected external collaborator behind the generated stub.  The streaming call
returns the finite list of chunks the remote stream yields. -/
structure StubBehavior where
  chatComplete : ChatCompleteRequest → ChatCompleteResponse
  chatCompleteStream : ChatCompleteRequest → List ProtoChatCompleteStreamResponse
  embed : EmbedRequest → EmbedResponse
  textToImage : TextToImageRequest → TextToImageResponse
  transcribe : TranscribeRequest → TranscribeResponse

/-- The RPC channel parameters: host, port, path and TLS flag, exactly the
four arguments `Client.__init__` passes to `Channel(...)`. -/
structure Channel where
  host : Option String
  port : Option Nat
  path : String
  ssl : Bool
deriving DecidableEq

/-- The generated service stub as bound by the client: the channel it is
bound to, the per-call metadata headers, and the remote behaviour. -/
structure APIGatewayServiceStub where
  channel : Channel
  metadata : List (String × String)
  remote : StubBehavior

/-- The default Function Network API gateway base URL. -/
def DEFAULT_BASE_PATH : String := "https://api.function.network"

/-- Options used to configure a client.  `apiKey` is a Python `str` field
that callers may also leave as `None`, hence `Option String`. -/
structure ClientOptions where
  apiKey : Option String
  baseUrl : String := DEFAULT_BASE_PATH

/-- A client holding the service stub built at construction. -/
structure Client where
  service : APIGatewayServiceStub

/-- Observable side effects of construction. -/
inductive Effect where
  | channelOpened (c : Channel)
deriving DecidableEq

/-- `Client.__init__`, with the remote behaviour injected behind the stub.
Returns the side effects performed together with either the constructed
client or the raised exception.  The apiKey check
(`options.apiKey == "" or options.apiKey is None`) runs before the URL is
parsed and before any channel is opened.  Building the channel evaluates the
`url.port` property, which raises `ValueError` for an invalid port — before
`Channel(...)` runs, so no channel is opened in that case either. -/
def Client.init (options : ClientOptions) (remote : StubBehavior) :
    List Effect × Except PyExc Client :=
  match options.apiKey with
  | none => ([], Except.error (PyExc.valueError "apiKey must be specified"))
  | some k =>
    if k = "" then ([], Except.error (PyExc.valueError "apiKey must be specified"))
    else
      let url := urlparse options.baseUrl
      match url.port with
      | Except.error e => ([], Except.error e)
      | Except.ok port =>
          let channel : Channel :=
            { host := url.hostname
              port := port
              path := url.path
              ssl := url.scheme == "https" }
          ([Effect.channelOpened channel],
            Except.ok
              { service :=
                { channel := channel
                  metadata := [("x-api-key", k)]
                  remote := remote } })

/-- `_chat_complete_stream_wrapper(base)`: the async generator that yields
`chunk.response.content` for each chunk of `base` and then executes
`raise StopAsyncIteration`.  A full run therefore yields the content of every
chunk in order, and its ending is whatever the async-generator protocol makes
of the body raising `StopAsyncIteration` after the loop. -/
def chat_complete_stream_wrapper (base : List ProtoChatCompleteStreamResponse) : GenRun :=
  { tokens := base.map (fun chunk => chunk.response.content)
    ending := pep525Convert (BodyEnd.raised PyExc.stopAsyncIteration) }

/-- The wrapper dataclass `ChatCompleteStreamResponse` returned by
`chat_complete_stream`: the role read from the first chunk, and the token
stream (modelled by its full run). -/
structure ChatCompleteStreamResponse where
  role : String
  tokenStream : GenRun
deriving DecidableEq

/-- `Client.chat_complete`: issues the unary chat-completion call with fields
`model` and `message` and returns the stub's response unmodified. -/
def Client.chat_complete (c : Client) (model : String)
    (messages : List ChatCompleteMessage) : RemoteCall × ChatCompleteResponse :=
  let req : ChatCompleteRequest := { model := model, message := messages }
  ({ headers := c.service.metadata, request := OpRequest.chatComplete req },
    c.service.remote.chatComplete req)

/-- `Client.chat_complete_stream`: issues the streaming call, awaits the
first chunk with `raw.__anext__()` — which raises `StopAsyncIteration` when
the remote stream yields no chunk — takes `role` from that first chunk, and
wraps the remaining chunks with `_chat_complete_stream_wrapper`. -/
def Client.chat_complete_stream (c : Client) (model : String)
    (messages : List ChatCompleteMessage) :
    RemoteCall × Except PyExc ChatCompleteStreamResponse :=
  let req : ChatCompleteRequest := { model := model, message := messages }
  let call : RemoteCall :=
    { headers := c.service.metadata, request := OpRequest.chatCompleteStream req }
  (call,
    match c.service.remote.chatCompleteStream req with
    | [] => Except.error PyExc.stopAsyncIteration
    | first :: rest =>
        Except.ok
          { role := first.response.role
            tokenStream := chat_complete_stream_wrapper rest })

/-- `Client.embed`: issues the unary embed call with fields `model` and
`input` and returns the stub's response unmodified. -/
def Client.embed (c : Client) (model : String) (input_string : String) :
    RemoteCall × EmbedResponse :=
  let req : EmbedRequest := { model := model, input := input_string }
  ({ headers := c.service.metadata, request := OpRequest.embed req },
    c.service.remote.embed req)

/-- `Client.text_to_image`: issues the unary call with fields `model`,
`prompt`, `count`, `quality`, `size` and returns `res.images`. -/
def Client.text_to_image (c : Client) (model : String) (prompt : String)
    (count : Int) (quality : ImageQuality) (size : String) :
    RemoteCall × List TextToImageResponseImage :=
  let req : TextToImageRequest :=
    { model := model, prompt := prompt, count := count, quality := quality, size := size }
  ({ headers := c.service.metadata, request := OpRequest.textToImage req },
    (c.service.remote.textToImage req).images)

/-- `Client.transcribe`: issues the unary transcribe call with fields `model`
and `url` and returns the stub's response unmodified. -/
def Client.transcribe (c : Client) (model : String) (url : String) :
    RemoteCall × TranscribeResponse :=
  let req : TranscribeRequest := { model := model, url := url }
  ({ headers := c.service.metadata, request := OpRequest.transcribe req },
    c.service.remote.transcribe req)

/-! ## Concrete fixtures used to instantiate the theorems -/

/-- A concrete remote behaviour; its streaming call yields exactly the two
chunks of the spec's example. -/
def testRemote : StubBehavior :=
  { chatComplete := fun _ => { role := "assistant", content := "ok", tokenUsage := 3 }
    chatCompleteStream := fun _ =>
      [{ response := { role := "assistant", content := "Hi" } },
       { response := { role := "assistant", content := " there" } }]
    embed := fun _ => { embedding := [1, 2, 3] }
    textToImage := fun _ => { images := [{ url := "https://images.example/1" }] }
    transcribe := fun _ => { text := "hello" } }

/-- A remote behaviour whose streaming call yields zero chunks. -/
def emptyStreamRemote : StubBehavior :=
  { testRemote with chatCompleteStream := fun _ => [] }

/-- The channel derived from the default base URL. -/
def defaultChannel : Channel :=
  { host := some "api.function.network", port := none, path := "", ssl := true }

/-- A client over `testRemote`, as built from apiKey "k" and the default base
URL. -/
def twoChunkClient : Client :=
  { service :=
    { channel := defaultChannel
      metadata := [("x-api-key", "k")]
      remote := testRemote } }

/-- A client over `emptyStreamRemote`. -/
def emptyStreamClient : Client :=
  { service :=
    { channel := defaultChannel
      metadata := [("x-api-key", "k")]
      remote := emptyStreamRemote } }

/-- The client that `Client.init` builds from apiKey "secret" and the default
base URL over `testRemote`. -/
def secretClient : Client :=
  { service :=
    { channel := defaultChannel
      metadata := [("x-api-key", "secret")]
      remote := testRemote } }

/-- Successful construction, explicitly: with a present, nonempty apiKey and
a baseUrl whose port property does not raise, `Client.init` opens exactly one
channel derived from the parsed base URL and returns the client whose stub is
bound to that channel with the `x-api-key` header. -/
theorem Client.init_ok (options : ClientOptions) (k : String) (remote : StubBehavior)
    (p : Option Nat) (h1 : options.apiKey = some k) (h2 : k ≠ "")
    (h3 : (urlparse options.baseUrl).port = Except.ok p) :
    Client.init options remote =
      ([Effect.channelOpened
          { host := (urlparse options.baseUrl).hostname
            port := p
            path := (urlparse options.baseUrl).path
            ssl := (urlparse options.baseUrl).scheme == "https" }],
       Except.ok
        { service :=
          { channel :=
              { host := (urlparse options.baseUrl).hostname
                port := p
                path := (urlparse options.baseUrl).path
                ssl := (urlparse options.baseUrl).scheme == "https" }
            metadata := [("x-api-key", k)]
            remote := remote } }) := by
  unfold Client.init
  rw [h1]
  simp [h2, h3]

/-- C3: constructing a client whose options carry an empty or absent apiKey
fails with the `InvalidArgument`-class error (`ValueError("apiKey must be
specified")`), raised locally before any channel is opened or any network
call is made, and no client is returned — for every baseUrl. -/
theorem client_init_rejects_missing_apiKey (options : ClientOptions)
    (remote : StubBehavior)
    (h : options.apiKey = none ∨ options.apiKey = some "") :
    Client.init options remote =
      ([], Except.error (PyExc.valueError "apiKey must be specified")) := by
  rcases h with h | h <;> simp [Client.init, h]

/-- Witness for C3: at `apiKey := none`. -/
theorem client_init_rejects_missing_apiKey_witness :
    (({ apiKey := none } : ClientOptions).apiKey = none ∨
      ({ apiKey := none } : ClientOptions).apiKey = some "") ∧
    Client.init { apiKey := none } testRemote =
      ([], Except.error (PyExc.valueError "apiKey must be specified")) :=
  ⟨Or.inl rfl, client_init_rejects_missing_apiKey { apiKey := none } testRemote (Or.inl rfl)⟩

/-- C8: every client that construction actually returns for apiKey `k`
attaches the header `x-api-key: k` to every remote call, across all five
operations, with the binding fixed at construction. -/
theorem client_calls_attach_apiKey_header (options : ClientOptions)
    (k : String) (remote : StubBehavior) (tr : List Effect) (client : Client)
    (h1 : options.apiKey = some k)
    (h2 : Client.init options remote = (tr, Except.ok client)) :
    ∀ (model input url prompt size : String) (messages : List ChatCompleteMessage)
      (count : Int) (quality : ImageQuality),
      (client.chat_complete model messages).1.headers = [("x-api-key", k)] ∧
      (client.chat_complete_stream model messages).1.headers = [("x-api-key", k)] ∧
      (client.embed model input).1.headers = [("x-api-key", k)] ∧
      (client.text_to_image model prompt count quality size).1.headers = [("x-api-key", k)] ∧
      (client.transcribe model url).1.headers = [("x-api-key", k)] := by
  have hm : client.service.metadata = [("x-api-key", k)] := by
    by_cases hk : k = ""
    · simp [Client.init, h1, hk] at h2
    · rcases hp : (urlparse options.baseUrl).port with e0 | p
      · have hinit : Client.init options remote = ([], Except.error e0) := by
          unfold Client.init
          rw [h1]
          simp [hk, hp]
        rw [hinit] at h2
        injection h2 with hA hB
        exact Except.noConfusion hB
      · have hinit := Client.init_ok options k remote p h1 hk hp
        rw [hinit] at h2
        injection h2 with hA hB
        injection hB with hC
        rw [← hC]
  exact fun _ _ _ _ _ _ _ _ => ⟨hm, hm, hm, hm, hm⟩

/-- Witness for C8: the concrete client built from apiKey `"secret"` and the
default base URL. -/
theorem client_calls_attach_apiKey_header_witness :
    ({ apiKey := some "secret" } : ClientOptions).apiKey = some "secret" ∧
    Client.init { apiKey := some "secret" } testRemote =
      ([Effect.channelOpened defaultChannel], Except.ok secretClient) ∧
    ∀ (model input url prompt size : String) (messages : List ChatCompleteMessage)
      (count : Int) (quality : ImageQuality),
      (secretClient.chat_complete model messages).1.headers = [("x-api-key", "secret")] ∧
      (secretClient.chat_complete_stream model messages).1.headers = [("x-api-key", "secret")] ∧
      (secretClient.embed model input).1.headers = [("x-api-key", "secret")] ∧
      (secretClient.text_to_image model prompt count quality size).1.headers =
        [("x-api-key", "secret")] ∧
      (secretClient.transcribe model url).1.headers = [("x-api-key", "secret")] :=
  ⟨rfl, rfl,
    client_calls_attach_apiKey_header { apiKey := some "secret" } "secret" testRemote
      [Effect.channelOpened defaultChannel] secretClient rfl rfl⟩

/-- C6: `chat_complete`, `embed` and `transcribe` are pure pass-throughs: for
every client and arguments, each returns exactly the stub's response to its
request, unmodified. -/
theorem unary_calls_pass_through (c : Client) (model input url : String)
    (messages : List ChatCompleteMessage) :
    (c.chat_complete model messages).2 =
      c.service.remote.chatComplete { model := model, message := messages } ∧
    (c.embed model input).2 =
      c.service.remote.embed { model := model, input := input } ∧
    (c.transcribe model url).2 =
      c.service.remote.transcribe { model := model, url := url } :=
  ⟨rfl, rfl, rfl⟩

/-- C7: `text_to_image` returns exactly the `images` list of the stub's
response — the identical list, so order and length are preserved — and the
requested count is not enforced client-side. -/
theorem text_to_image_returns_images (c : Client) (model prompt size : String)
    (count : Int) (quality : ImageQuality) :
    (c.text_to_image model prompt count quality size).2 =
      (c.service.remote.textToImage
        { model := model, prompt := prompt, count := count,
          quality := quality, size := size }).images ∧
    (c.text_to_image model prompt count quality size).2.length =
      (c.service.remote.textToImage
        { model := model, prompt := prompt, count := count,
          quality := quality, size := size }).images.length :=
  ⟨rfl, rfl⟩

/-- C10: `text_to_image` forwards `count`, `quality` and `size` to the stub
unmodified and unvalidated — for every `Int` count, zero and negatives
included, and every size string, the issued request carries exactly those
values. -/
theorem text_to_image_forwards_arguments (c : Client) (model prompt size : String)
    (count : Int) (quality : ImageQuality) :
    (c.text_to_image model prompt count quality size).1 =
      { headers := c.service.metadata
        request := OpRequest.textToImage
          { model := model, prompt := prompt, count := count,
            quality := quality, size := size } } :=
  rfl

/-- C4: when the underlying stream yields zero chunks, `chat_complete_stream`
fails — `raw.__anext__()` raises `StopAsyncIteration` — and returns no
response record at all. -/
theorem chat_complete_stream_empty_fails (c : Client) (model : String)
    (messages : List ChatCompleteMessage)
    (h : c.service.remote.chatCompleteStream { model := model, message := messages } = []) :
    (c.chat_complete_stream model messages).2 = Except.error PyExc.stopAsyncIteration := by
  simp [Client.chat_complete_stream, h]

/-- Witness for C4: a client whose remote stream is empty. -/
theorem chat_complete_stream_empty_fails_witness :
    emptyStreamClient.service.remote.chatCompleteStream { model := "m", message := [] } = [] ∧
    (emptyStreamClient.chat_complete_stream "m" []).2 = Except.error PyExc.stopAsyncIteration :=
  ⟨rfl, chat_complete_stream_empty_fails emptyStreamClient "m" [] rfl⟩

/-- C1, counterexample: against the two-chunk stream
`[(assistant, "Hi"), (assistant, " there")]`, the returned token stream does
not yield `["Hi", " there"]`: the first chunk was already consumed for the
role, so its content `"Hi"` is never re-emitted, and iteration does not end
in clean exhaustion. -/
theorem chat_complete_stream_two_chunk_counterexample :
    ∃ r, (twoChunkClient.chat_complete_stream "llama"
            [{ role := "user", content := "hi" }]).2 = Except.ok r ∧
      r.tokenStream.tokens ≠ ["Hi", " there"] ∧
      r.tokenStream.ending ≠ GenEnd.exhausted :=
  ⟨_, rfl, by decide, by decide⟩

/-- C1, amended: against the two-chunk stream
`[(assistant, "Hi"), (assistant, " there")]`, `chat_complete_stream` returns
a record whose `role` is `"assistant"` before any token is consumed and whose
token stream yields exactly `[" there"]` — the content of each chunk after
the first — and iteration then ends with
`RuntimeError("async generator raised StopAsyncIteration")` (the wrapper's
trailing `raise StopAsyncIteration` converted by PEP 525), not with clean
exhaustion. -/
theorem chat_complete_stream_two_chunk_run :
    ∃ r, (twoChunkClient.chat_complete_stream "llama"
            [{ role := "user", content := "hi" }]).2 = Except.ok r ∧
      r.role = "assistant" ∧
      r.tokenStream.tokens = [" there"] ∧
      r.tokenStream.ending =
        GenEnd.failed (PyExc.runtimeError "async generator raised StopAsyncIteration") :=
  ⟨_, rfl, rfl, rfl, rfl⟩

/-- C2 (behaviour on every finite stream): the token stream the wrapper
produces is the finite list of the chunks' contents, but it never exhausts
normally: its ending is always
`RuntimeError("async generator raised StopAsyncIteration")`, because the
wrapper's body raises `StopAsyncIteration` after its loop and the
async-generator protocol converts that raise into a `RuntimeError`. -/
theorem token_stream_never_exhausts_normally
    (base : List ProtoChatCompleteStreamResponse) :
    (chat_complete_stream_wrapper base).tokens =
      base.map (fun chunk => chunk.response.content) ∧
    (chat_complete_stream_wrapper base).ending =
      GenEnd.failed (PyExc.runtimeError "async generator raised StopAsyncIteration") ∧
    (chat_complete_stream_wrapper base).ending ≠ GenEnd.exhausted :=
  ⟨rfl, rfl, fun hcontra => GenEnd.noConfusion hcontra⟩
